import Mathlib

/-!
Verification of the Caravan backend's proximity/heatmap core.

The development shallowly embeds the JavaScript source:
- request-body fields become `JsVal` (JavaScript values with their truthiness),
- the MySQL tables become lists of record rows inside `MySqlDb`,
- the PostGIS store becomes a list of `GeoRow`,
- route handlers become pure functions returning a response, the successor
  states of both stores, and a trace of the statements they issued,
- the SQL distance expression becomes `sqlDistance` over the reals.

Machine floats are idealized as exact rationals (storage) and reals
(trigonometry); `decimal` columns hold `ℚ`.
-/

/-- A JavaScript value as it appears in a request body or query string.
JS `NaN` is not representable in `ℚ`; it is falsy in JS like `0`, so the
truthiness model below is faithful on everything the routes inspect. -/
inductive JsVal where
  | undef : JsVal
  | nullv : JsVal
  | num (x : ℚ) : JsVal
  | str (s : String) : JsVal
  | boolv (b : Bool) : JsVal
deriving DecidableEq, Repr

/-- JavaScript truthiness: `undefined`, `null`, `0`, `""` and `false` are
falsy, everything else truthy.  This is what `!latitude` tests. -/
def truthy : JsVal → Bool
  | .undef => false
  | .nullv => false
  | .num x => x != 0
  | .str s => s != ""
  | .boolv b => b

/-- `typeof v === "number"`. -/
def isNumber : JsVal → Bool
  | .num _ => true
  | _ => false

/-- Numeric content of a value, as MySQL/parameter coercion reads it
(numbers as themselves, booleans as 0/1, everything else as 0).  The
claims only exercise the `num` case. -/
def asQ : JsVal → ℚ
  | .num x => x
  | .boolv b => if b then 1 else 0
  | _ => 0

/-- The JS pattern `v || null` used for the optional address fields. -/
def orNull (v : JsVal) : JsVal :=
  if truthy v then v else .nullv

/-- A row of the MySQL `locations` table (immutable location record).
The DB-generated `created_at` column is not inspected by any route. -/
structure LocationRow where
  location_id : ℕ
  latitude : ℚ
  longitude : ℚ
  city : JsVal
  state : JsVal
  country : JsVal
  postal_code : JsVal
deriving DecidableEq, Repr

/-- A row of the MySQL `user_locations` table (current-location pointer).
The DB-generated `timestamp` column is not inspected by any claim. -/
structure UserLocationRow where
  user_location_id : ℕ
  user_id : ℕ
  location_id : ℕ
  is_current : Bool
deriving DecidableEq, Repr

/-- A row of the MySQL `businesses` table. -/
structure BusinessRow where
  business_id : ℕ
  name : String
  description : String
  business_type : String
  rating : ℚ
  location_id : ℕ
  cluster_id : ℕ
deriving DecidableEq, Repr

/-- The MySQL database state touched by the core: the tables plus the
auto-increment counters feeding `insertId`. -/
structure MySqlDb where
  locations : List LocationRow
  user_locations : List UserLocationRow
  businesses : List BusinessRow
  user_business_likes : List (ℕ × ℕ)
  user_preferences : List (ℕ × ℕ)
  next_location_id : ℕ
  next_user_location_id : ℕ
deriving DecidableEq, Repr

/-- A row of the PostGIS `user_locations` table: one mutable point per
user (`ST_MakePoint(lon, lat)` unpacked into its coordinates). -/
structure GeoRow where
  user_id : ℕ
  latitude : ℚ
  longitude : ℚ
deriving DecidableEq, Repr

/-- The PostGIS store: the list of per-user point rows. -/
abbrev GeoDb := List GeoRow

/-- `GeoLocationService.validateCoordinates`: numbers first, then the
latitude range, then the longitude range, throwing on the first failure. -/
def validateCoordinates (latitude longitude : JsVal) : Except String Unit :=
  if isNumber latitude = false ∨ isNumber longitude = false then
    .error "Latitude and longitude must be numbers"
  else if asQ latitude < -90 ∨ asQ latitude > 90 then
    .error "Latitude must be between -90 and 90 degrees"
  else if asQ longitude < -180 ∨ asQ longitude > 180 then
    .error "Longitude must be between -180 and 180 degrees"
  else
    .ok ()

/-- `GeoLocationService.upsertUserLocation`: validate, look the user up,
then update in place or insert.  `pgDown` models the PostgreSQL store
being unreachable (any query throwing). -/
def upsertUserLocation (geo : GeoDb) (pgDown : Bool) (userId : ℕ)
    (latitude longitude : JsVal) : Except String (GeoDb × GeoRow) :=
  if pgDown then .error "PostgreSQL connection failed"
  else
    match validateCoordinates latitude longitude with
    | .error e => .error e
    | .ok _ =>
        let row : GeoRow := ⟨userId, asQ latitude, asQ longitude⟩
        match geo.find? (fun r => r.user_id == userId) with
        | some _ =>
            .ok (geo.map (fun r => if r.user_id == userId then row else r), row)
        | none => .ok (geo ++ [row], row)

/-- One SQL statement issued by the update-location handler, in program
order. -/
inductive SqlEv where
  | beginTxn : SqlEv
  | insertLocation : SqlEv
  | flipCurrent : SqlEv
  | insertUserLocation : SqlEv
  | pgUpsert : SqlEv
  | commit : SqlEv
  | rollback : SqlEv
deriving DecidableEq, Repr

/-- Outcome of the secondary (PostGIS) write as reported in the response
body: the returned row, or the literal fallback object with a failed
status. -/
inductive PgOutcome where
  | ok (row : GeoRow) : PgOutcome
  | failed : PgOutcome
deriving DecidableEq, Repr

/-- The 201 response body of `POST /location`. -/
structure UpdateOk where
  locationId : ℕ
  userLocationId : ℕ
  postgres : PgOutcome
deriving DecidableEq, Repr

/-- Response of `POST /location`.  The 500 catch branch is unreachable in
this model because the in-memory MySQL operations cannot throw. -/
inductive UpdateResponse where
  | badRequest (msg : String) : UpdateResponse
  | created (body : UpdateOk) : UpdateResponse
deriving DecidableEq, Repr

/-- Steps 1-3 of the handler against MySQL: insert the `locations` row,
flip every existing `user_locations` row of the user to not current,
insert the new current row. -/
def mysqlAfterUpdate (db : MySqlDb) (userId : ℕ)
    (latitude longitude city state country postal_code : JsVal) : MySqlDb :=
  let locationId := db.next_location_id
  let newLoc : LocationRow :=
    ⟨locationId, asQ latitude, asQ longitude,
      orNull city, orNull state, orNull country, orNull postal_code⟩
  let db1 : MySqlDb := { db with
    locations := db.locations ++ [newLoc]
    next_location_id := locationId + 1 }
  let db2 : MySqlDb := { db1 with
    user_locations := db1.user_locations.map
      (fun r => if r.user_id = userId then { r with is_current := false } else r) }
  { db2 with
    user_locations := db2.user_locations ++
      [⟨db2.next_user_location_id, userId, locationId, true⟩]
    next_user_location_id := db2.next_user_location_id + 1 }

/-- The statements of a run that reaches the transaction: the PostGIS
upsert is issued between the MySQL writes and the commit. -/
def updateTrace : List SqlEv :=
  [.beginTxn, .insertLocation, .flipCurrent, .insertUserLocation, .pgUpsert, .commit]

/-- `router.post("/location")` from `userLocationRoute.js`: user-id check,
truthiness validation of the coordinates, the MySQL transaction, the
caught best-effort PostGIS upsert, commit, combined response.  Returns the
response, the two store states and the statement trace. -/
def postLocation (db : MySqlDb) (geo : GeoDb) (pgDown : Bool) (userId : ℕ)
    (latitude longitude city state country postal_code : JsVal) :
    UpdateResponse × MySqlDb × GeoDb × List SqlEv :=
  if userId = 0 then
    (.badRequest "User ID is required for testing", db, geo, [])
  else if truthy latitude = false ∨ truthy longitude = false then
    (.badRequest "Latitude and longitude are required", db, geo, [])
  else
    let locationId := db.next_location_id
    let userLocationId := db.next_user_location_id
    let db3 := mysqlAfterUpdate db userId latitude longitude city state country postal_code
    match upsertUserLocation geo pgDown userId latitude longitude with
    | .ok (geo2, row) =>
        (.created ⟨locationId, userLocationId, .ok row⟩, db3, geo2, updateTrace)
    | .error _ =>
        (.created ⟨locationId, userLocationId, .failed⟩, db3, geo, updateTrace)

/-- One update-location request together with the availability of the
secondary store while it runs. -/
structure Call where
  userId : ℕ
  latitude : JsVal
  longitude : JsVal
  city : JsVal
  state : JsVal
  country : JsVal
  postal_code : JsVal
  pgDown : Bool
deriving DecidableEq, Repr

/-- A call is successful exactly when the handler reaches the transaction
and answers 201. -/
def callOk (c : Call) : Prop :=
  c.userId ≠ 0 ∧ truthy c.latitude = true ∧ truthy c.longitude = true

instance (c : Call) : Decidable (callOk c) := by
  unfold callOk
  infer_instance

/-- Run one call against the pair of stores. -/
def stepCall (s : MySqlDb × GeoDb) (c : Call) : MySqlDb × GeoDb :=
  let r := postLocation s.1 s.2 c.pgDown c.userId c.latitude c.longitude
    c.city c.state c.country c.postal_code
  (r.2.1, r.2.2.1)

/-- Run a sequence of calls in order. -/
def runCalls (s : MySqlDb × GeoDb) (cs : List Call) : MySqlDb × GeoDb :=
  cs.foldl stepCall s

/-- Number of `user_locations` rows of user `u` with `is_current = TRUE`. -/
def currentCount (db : MySqlDb) (u : ℕ) : ℕ :=
  (db.user_locations.filter (fun r => r.user_id == u && r.is_current)).length

/-- `RADIANS(x)` of MySQL: degrees to radians. -/
noncomputable def radiansDeg (x : ℝ) : ℝ := x * Real.pi / 180

/-- The distance expression shared by the nearby, heatmap and
recommendation queries: `6371 * ACOS(COS(RADIANS(lat1)) * COS(RADIANS(lat2))
* COS(RADIANS(lon2) - RADIANS(lon1)) + SIN(RADIANS(lat1)) *
SIN(RADIANS(lat2)))`, the spherical law of cosines in kilometers. -/
noncomputable def sqlDistance (lat1 lon1 lat2 lon2 : ℝ) : ℝ :=
  6371 * Real.arccos
    (Real.cos (radiansDeg lat1) * Real.cos (radiansDeg lat2) *
        Real.cos (radiansDeg lon2 - radiansDeg lon1) +
      Real.sin (radiansDeg lat1) * Real.sin (radiansDeg lat2))

/-- The `user_locations ⋈ locations` rows of user `u` with
`is_current = TRUE` (the current-location lookup shared by the routes). -/
def currentJoin (db : MySqlDb) (u : ℕ) : List (UserLocationRow × LocationRow) :=
  (db.user_locations.filter (fun r => r.user_id == u && r.is_current)).flatMap
    (fun ul => (db.locations.filter (fun l => l.location_id == ul.location_id)).map
      (fun l => (ul, l)))

/-- The coordinates the routes read from the first row of the
current-location lookup, `none` when the result set is empty. -/
def getCurrentCoords (db : MySqlDb) (u : ℕ) : Option (ℚ × ℚ) :=
  match currentJoin db u with
  | [] => none
  | r :: _ => some (r.2.latitude, r.2.longitude)

/-- `businesses ⋈ locations` on `location_id`, the FROM clause of the
nearby and recommendation queries. -/
def businessJoin (db : MySqlDb) : List (BusinessRow × LocationRow) :=
  db.businesses.flatMap
    (fun b => (db.locations.filter (fun l => l.location_id == b.location_id)).map
      (fun l => (b, l)))

/-- A result row of `GET /api/businesses/nearby`: the selected business
and location columns plus the computed `distance` column. -/
structure NearbyRow where
  business : BusinessRow
  loc : LocationRow
  distance : ℝ

/-- The nearby-businesses query: distance column, `HAVING distance < ?`,
`ORDER BY distance`, `LIMIT ?`. -/
noncomputable def nearbyQuery (db : MySqlDb) (userLat userLng radius : ℚ)
    (limit : ℕ) : List NearbyRow :=
  let rows : List NearbyRow := (businessJoin db).map
    (fun bl => ⟨bl.1, bl.2,
      sqlDistance (userLat : ℝ) (userLng : ℝ) (bl.2.latitude : ℝ) (bl.2.longitude : ℝ)⟩)
  ((rows.filter (fun r => decide (r.distance < (radius : ℝ)))).mergeSort
      (fun a b => decide (a.distance ≤ b.distance))).take limit

/-- Which queries a read endpoint issued, in program order. -/
inductive QueryEv where
  | currentLocationQuery : QueryEv
  | businessesQuery : QueryEv
deriving DecidableEq, Repr

/-- Response of `GET /api/businesses/nearby`. -/
inductive NearbyResponse where
  | notFound (msg : String) : NearbyResponse
  | ok (rows : List NearbyRow) : NearbyResponse

/-- `GET /api/businesses/nearby`: current-location lookup first; 404 when
absent, otherwise the ranked query. -/
noncomputable def nearbyHandler (db : MySqlDb) (u : ℕ) (radius : ℚ)
    (limit : ℕ) : NearbyResponse × List QueryEv :=
  match getCurrentCoords db u with
  | none => (.notFound "User location not found", [QueryEv.currentLocationQuery])
  | some (la, lo) =>
      (.ok (nearbyQuery db la lo radius limit),
        [QueryEv.currentLocationQuery, QueryEv.businessesQuery])

/-- `user_locations ⋈ locations` over ALL rows with `is_current = TRUE`
(every user), the FROM/WHERE clause of the heatmap query. -/
def heatJoin (db : MySqlDb) : List (UserLocationRow × LocationRow) :=
  (db.user_locations.filter (fun r => r.is_current)).flatMap
    (fun ul => (db.locations.filter (fun l => l.location_id == ul.location_id)).map
      (fun l => (ul, l)))

/-- A raw heatmap query row: pointer row, location row, distance column. -/
structure HeatRow where
  ul : UserLocationRow
  loc : LocationRow
  distance : ℝ

/-- The heatmap candidates with their distance column. -/
noncomputable def heatCandidates (db : MySqlDb) (userLat userLng : ℚ) : List HeatRow :=
  (heatJoin db).map
    (fun p => ⟨p.1, p.2,
      sqlDistance (userLat : ℝ) (userLng : ℝ) (p.2.latitude : ℝ) (p.2.longitude : ℝ)⟩)

/-- The heatmap query: `HAVING distance < ?`, `ORDER BY distance`, no
limit. -/
noncomputable def heatmapRows (db : MySqlDb) (userLat userLng radius : ℚ) : List HeatRow :=
  ((heatCandidates db userLat userLng).filter
      (fun r => decide (r.distance < (radius : ℝ)))).mergeSort
    (fun a b => decide (a.distance ≤ b.distance))

/-- A formatted heatmap point as sent to the client. -/
structure HeatLoc where
  location_id : ℕ
  latitude : ℚ
  longitude : ℚ
  city : JsVal
  state : JsVal
  country : JsVal
  postal_code : JsVal
  is_current : Bool
deriving DecidableEq, Repr

/-- The `locationResults.map(...)` client formatting step. -/
def formatLoc (r : HeatRow) : HeatLoc :=
  ⟨r.loc.location_id, r.loc.latitude, r.loc.longitude, r.loc.city, r.loc.state,
    r.loc.country, r.loc.postal_code, true⟩

/-- Response of `GET /api/user/heatmap`: either the no-location JSON
(empty list, count 0 and a message) or the data JSON with the center. -/
inductive HeatmapResponse where
  | emptyResult (locations : List HeatLoc) (count : ℕ) (message : String) : HeatmapResponse
  | withData (locations : List HeatLoc) (count : ℕ) (centerLat centerLng : ℚ) : HeatmapResponse

/-- `GET /api/user/heatmap`: resolve the requester's current location;
when absent answer the empty result, otherwise every current location
within the radius, formatted, with count and center. -/
noncomputable def heatmapHandler (db : MySqlDb) (u : ℕ) (radius : ℚ) : HeatmapResponse :=
  match getCurrentCoords db u with
  | none => .emptyResult [] 0 "No location data available"
  | some (la, lo) =>
      let locations := (heatmapRows db la lo radius).map formatLoc
      .withData locations locations.length la lo

/-- The `user_preferences` lookup: cluster of the first row, if any. -/
def prefLookup (db : MySqlDb) (u : ℕ) : Option ℕ :=
  ((db.user_preferences.filter (fun p => p.1 == u)).head?).map (fun p => p.2)

/-- The business ids the user has liked (`NOT IN` subquery). -/
def likedBy (db : MySqlDb) (u : ℕ) : List ℕ :=
  (db.user_business_likes.filter (fun p => p.1 == u)).map (fun p => p.2)

/-- The recommendation candidates: cluster match and not already liked. -/
def recCandidates (db : MySqlDb) (u clusterId : ℕ) : List (BusinessRow × LocationRow) :=
  (businessJoin db).filter
    (fun bl => bl.1.cluster_id == clusterId && !((likedBy db u).contains bl.1.business_id))

/-- A result row of `GET /api/recommendations`; the `distance` column is
only selected when the user has a current location. -/
structure RecRow where
  business : BusinessRow
  loc : LocationRow
  distance : Option ℝ

/-- The recommendation query: with a current location, distance column
and `ORDER BY distance`; without one, `ORDER BY b.rating DESC`; `LIMIT ?`
either way. -/
noncomputable def recQuery (db : MySqlDb) (u clusterId : ℕ)
    (locOpt : Option (ℚ × ℚ)) (limit : ℕ) : List RecRow :=
  match locOpt with
  | some (la, lo) =>
      let rows : List RecRow := (recCandidates db u clusterId).map
        (fun bl => ⟨bl.1, bl.2,
          some (sqlDistance (la : ℝ) (lo : ℝ) (bl.2.latitude : ℝ) (bl.2.longitude : ℝ))⟩)
      (rows.mergeSort (fun a b => decide (a.distance.getD 0 ≤ b.distance.getD 0))).take limit
  | none =>
      let rows : List RecRow := (recCandidates db u clusterId).map
        (fun bl => ⟨bl.1, bl.2, none⟩)
      (rows.mergeSort (fun a b => decide (b.business.rating ≤ a.business.rating))).take limit

/-- Response of `GET /api/recommendations`. -/
inductive RecResponse where
  | notFound (msg : String) : RecResponse
  | ok (rows : List RecRow) : RecResponse

/-- `GET /api/recommendations`: preferences lookup (404 when absent),
then the ranked query centered on the optional current location. -/
noncomputable def recHandler (db : MySqlDb) (u : ℕ) (limit : ℕ) : RecResponse :=
  match prefLookup db u with
  | none => .notFound "User preferences not found"
  | some clusterId => .ok (recQuery db u clusterId (getCurrentCoords db u) limit)

/-- Example store states used by the concrete witnesses below. -/
def dbEmpty : MySqlDb := ⟨[], [], [], [], [], 1, 1⟩

lemma sqlDistance_comm (lat1 lon1 lat2 lon2 : ℝ) :
    sqlDistance lat1 lon1 lat2 lon2 = sqlDistance lat2 lon2 lat1 lon1 := by
  unfold sqlDistance
  have h : radiansDeg lon2 - radiansDeg lon1 = -(radiansDeg lon1 - radiansDeg lon2) := by
    ring
  rw [h, Real.cos_neg]
  ring_nf

lemma sqlDistance_self (lat lon : ℝ) : sqlDistance lat lon lat lon = 0 := by
  unfold sqlDistance
  rw [sub_self, Real.cos_zero, mul_one]
  have h : Real.cos (radiansDeg lat) * Real.cos (radiansDeg lat) +
      Real.sin (radiansDeg lat) * Real.sin (radiansDeg lat) = 1 := by
    have hs := Real.sin_sq_add_cos_sq (radiansDeg lat)
    nlinarith [hs]
  rw [h, Real.arccos_one, mul_zero]

lemma pairwise_mergeSort_key {α : Type _} {β : Type _} [LinearOrder β]
    (key : α → β) (l : List α) :
    List.Pairwise (fun a b => key a ≤ key b)
      (l.mergeSort (fun a b => decide (key a ≤ key b))) := by
  have h := @List.sorted_mergeSort α (fun a b => decide (key a ≤ key b))
    (fun a b c hab hbc => by
      simp only [decide_eq_true_iff] at *
      exact le_trans hab hbc)
    (fun a b => by
      simp only [Bool.or_eq_true, decide_eq_true_iff]
      exact le_total _ _) l
  exact h.imp (fun hab => of_decide_eq_true hab)

lemma pairwise_mergeSort_key_rev {α : Type _} {β : Type _} [LinearOrder β]
    (key : α → β) (l : List α) :
    List.Pairwise (fun a b => key b ≤ key a)
      (l.mergeSort (fun a b => decide (key b ≤ key a))) := by
  have h := @List.sorted_mergeSort α (fun a b => decide (key b ≤ key a))
    (fun a b c hab hbc => by
      simp only [decide_eq_true_iff] at *
      exact le_trans hbc hab)
    (fun a b => by
      simp only [Bool.or_eq_true, decide_eq_true_iff]
      exact le_total _ _) l
  exact h.imp (fun hab => of_decide_eq_true hab)

/-- Claim C10: for valid coordinate pairs A and B, the query's distance
expression is symmetric (`distance(A,B) = distance(B,A)`) and vanishes on
equal points (`distance(A,A) = 0`). -/
theorem C10_distance_symm_self (lat1 lon1 lat2 lon2 : ℝ)
    (h1 : -90 ≤ lat1 ∧ lat1 ≤ 90) (h2 : -180 ≤ lon1 ∧ lon1 ≤ 180)
    (h3 : -90 ≤ lat2 ∧ lat2 ≤ 90) (h4 : -180 ≤ lon2 ∧ lon2 ≤ 180) :
    sqlDistance lat1 lon1 lat2 lon2 = sqlDistance lat2 lon2 lat1 lon1 ∧
      sqlDistance lat1 lon1 lat1 lon1 = 0 :=
  ⟨sqlDistance_comm lat1 lon1 lat2 lon2, sqlDistance_self lat1 lon1⟩

/-- Witness for C10 at A = (40, -75), B = (41, -74). -/
theorem C10_witness :
    (((-90 : ℝ) ≤ 40 ∧ (40 : ℝ) ≤ 90) ∧ ((-180 : ℝ) ≤ -75 ∧ (-75 : ℝ) ≤ 180) ∧
        ((-90 : ℝ) ≤ 41 ∧ (41 : ℝ) ≤ 90) ∧ ((-180 : ℝ) ≤ -74 ∧ (-74 : ℝ) ≤ 180)) ∧
      (sqlDistance 40 (-75) 41 (-74) = sqlDistance 41 (-74) 40 (-75) ∧
        sqlDistance 40 (-75) 40 (-75) = 0) :=
  ⟨by norm_num,
    C10_distance_symm_self 40 (-75) 41 (-74)
      (by norm_num) (by norm_num) (by norm_num) (by norm_num)⟩

/-- Claim C5: for every center, radius and limit, the nearby-businesses
query returns only rows with distance strictly below the radius, sorted
ascending by distance, with at most `limit` rows. -/
theorem C5_nearby_strict_sorted_limited (db : MySqlDb) (userLat userLng radius : ℚ)
    (limit : ℕ) :
    (nearbyQuery db userLat userLng radius limit).Forall
        (fun r => r.distance < (radius : ℝ)) ∧
      List.Sorted (fun a b : NearbyRow => a.distance ≤ b.distance)
        (nearbyQuery db userLat userLng radius limit) ∧
      (nearbyQuery db userLat userLng radius limit).length ≤ limit := by
  refine ⟨?_, ?_, ?_⟩
  · rw [List.forall_iff_forall_mem]
    intro x hx
    unfold nearbyQuery at hx
    have hx1 := (List.take_sublist _ _).subset hx
    rw [List.mem_mergeSort] at hx1
    exact of_decide_eq_true (List.mem_filter.mp hx1).2
  · unfold nearbyQuery
    exact List.Pairwise.sublist (List.take_sublist _ _)
      (pairwise_mergeSort_key (fun r : NearbyRow => r.distance) _)
  · unfold nearbyQuery
    exact List.length_take_le _ _

/-- Claim C6: a requester with no current location gets the 404
`NoLocationError` response from the nearby endpoint, and the candidate
(businesses) query is never issued. -/
theorem C6_nearby_no_location (db : MySqlDb) (u : ℕ) (radius : ℚ) (limit : ℕ)
    (h : getCurrentCoords db u = none) :
    nearbyHandler db u radius limit =
      (.notFound "User location not found", [QueryEv.currentLocationQuery]) := by
  unfold nearbyHandler
  rw [h]

/-- Witness for C6 on an empty database. -/
theorem C6_witness :
    getCurrentCoords dbEmpty 5 = none ∧
      nearbyHandler dbEmpty 5 10 20 =
        (.notFound "User location not found", [QueryEv.currentLocationQuery]) :=
  ⟨rfl, C6_nearby_no_location dbEmpty 5 10 20 rfl⟩

/-- Claim C7: a requester with no current location gets the explicit
empty heatmap object (empty list, count 0) as a success response, not an
error. -/
theorem C7_heatmap_no_location (db : MySqlDb) (u : ℕ) (radius : ℚ)
    (h : getCurrentCoords db u = none) :
    heatmapHandler db u radius = .emptyResult [] 0 "No location data available" := by
  unfold heatmapHandler
  rw [h]

/-- Witness for C7 on an empty database. -/
theorem C7_witness :
    getCurrentCoords dbEmpty 7 = none ∧
      heatmapHandler dbEmpty 7 10 = .emptyResult [] 0 "No location data available" :=
  ⟨rfl, C7_heatmap_no_location dbEmpty 7 10 rfl⟩

lemma filter_map_flip_self (l : List UserLocationRow) (u : ℕ) :
    (l.map (fun r => if r.user_id = u then { r with is_current := false } else r)).filter
      (fun r => r.user_id == u && r.is_current) = [] := by
  induction l with
  | nil => rfl
  | cons a t ih =>
      rw [List.map_cons, List.filter_cons]
      have hp : ((if a.user_id = u then { a with is_current := false } else a).user_id == u &&
          (if a.user_id = u then { a with is_current := false } else a).is_current) = false := by
        by_cases h : a.user_id = u
        · simp [h]
        · simp [h]
      rw [hp]
      simpa using ih

lemma filter_map_flip_other (l : List UserLocationRow) (v u : ℕ) (hvu : v ≠ u) :
    (l.map (fun r => if r.user_id = v then { r with is_current := false } else r)).filter
      (fun r => r.user_id == u && r.is_current) =
      l.filter (fun r => r.user_id == u && r.is_current) := by
  induction l with
  | nil => rfl
  | cons a t ih =>
      rw [List.map_cons, List.filter_cons, List.filter_cons]
      by_cases h : a.user_id = v
      · have hau : (a.user_id == u) = false := by
          rw [h]
          simp [hvu]
        have hp1 : ((if a.user_id = v then { a with is_current := false } else a).user_id == u &&
            (if a.user_id = v then { a with is_current := false } else a).is_current) = false := by
          simp [h, hau]
        have hp2 : (a.user_id == u && a.is_current) = false := by
          simp [hau]
        rw [hp1, hp2]
        simpa using ih
      · have hfa : (if a.user_id = v then { a with is_current := false } else a) = a :=
          if_neg h
        rw [hfa]
        by_cases hpa : (a.user_id == u && a.is_current) = true
        · rw [if_pos hpa, if_pos hpa, ih]
        · rw [if_neg hpa, if_neg hpa, ih]

lemma currentCount_after_self (db : MySqlDb) (u : ℕ)
    (lat lon city state country postal_code : JsVal) :
    currentCount (mysqlAfterUpdate db u lat lon city state country postal_code) u = 1 := by
  unfold currentCount mysqlAfterUpdate
  simp [List.filter_append, filter_map_flip_self, List.filter]

lemma currentCount_after_other (db : MySqlDb) (v u : ℕ) (hvu : v ≠ u)
    (lat lon city state country postal_code : JsVal) :
    currentCount (mysqlAfterUpdate db v lat lon city state country postal_code) u =
      currentCount db u := by
  have hvq : (v == u) = false := by
    simp
    exact hvu
  unfold currentCount mysqlAfterUpdate
  simp [List.filter_append, filter_map_flip_other _ _ _ hvu, List.filter, hvq]

lemma stepCall_not_ok (s : MySqlDb × GeoDb) (c : Call) (h : ¬ callOk c) :
    stepCall s c = s := by
  unfold callOk at h
  by_cases h1 : c.userId = 0
  · simp [stepCall, postLocation, h1]
  · have h2 : truthy c.latitude = false ∨ truthy c.longitude = false := by
      rcases Bool.eq_false_or_eq_true (truthy c.latitude) with hl | hl
      · rcases Bool.eq_false_or_eq_true (truthy c.longitude) with ho | ho
        · exact absurd ⟨h1, hl, ho⟩ h
        · exact Or.inr ho
      · exact Or.inl hl
    simp [stepCall, postLocation, h1, h2]

lemma stepCall_ok_fst (s : MySqlDb × GeoDb) (c : Call) (h : callOk c) :
    (stepCall s c).1 = mysqlAfterUpdate s.1 c.userId c.latitude c.longitude
      c.city c.state c.country c.postal_code := by
  obtain ⟨h1, h2, h3⟩ := h
  unfold stepCall postLocation
  rw [if_neg h1, if_neg (by simp [h2, h3])]
  cases hu : upsertUserLocation s.2 c.pgDown c.userId c.latitude c.longitude with
  | ok p =>
      obtain ⟨g2, row⟩ := p
      rfl
  | error e => rfl

lemma runCalls_cons (s : MySqlDb × GeoDb) (c : Call) (t : List Call) :
    runCalls s (c :: t) = runCalls (stepCall s c) t := rfl

lemma runCalls_keep (u : ℕ) (cs : List Call) :
    ∀ s : MySqlDb × GeoDb, currentCount s.1 u = 1 →
      currentCount (runCalls s cs).1 u = 1 := by
  induction cs with
  | nil => intro s h; exact h
  | cons c t ih =>
      intro s h
      rw [runCalls_cons]
      apply ih
      by_cases hok : callOk c
      · by_cases hcu : c.userId = u
        · rw [stepCall_ok_fst s c hok, hcu]
          exact currentCount_after_self s.1 u _ _ _ _ _ _
        · rw [stepCall_ok_fst s c hok,
            currentCount_after_other s.1 c.userId u hcu _ _ _ _ _ _]
          exact h
      · rw [stepCall_not_ok s c hok]
        exact h

lemma runCalls_reaches (u : ℕ) (cs : List Call) :
    ∀ s : MySqlDb × GeoDb, (∃ c ∈ cs, c.userId = u ∧ callOk c) →
      currentCount (runCalls s cs).1 u = 1 := by
  induction cs with
  | nil =>
      intro s h
      rcases h with ⟨c, hc, _⟩
      simp at hc
  | cons c t ih =>
      intro s h
      rcases h with ⟨c', hc', hcu, hok⟩
      rw [runCalls_cons]
      rcases List.mem_cons.mp hc' with rfl | hmem
      · apply runCalls_keep u t
        rw [stepCall_ok_fst s c' hok, hcu]
        exact currentCount_after_self s.1 u _ _ _ _ _ _
      · exact ih _ ⟨c', hmem, hcu, hok⟩

/-- Claim C1: after any sequence of successful update-location calls that
touches user `u` at least once, exactly one `user_locations` row of `u`
has `is_current = TRUE`, whatever the two stores held before. -/
theorem C1_exactly_one_current (s : MySqlDb × GeoDb) (cs : List Call) (u : ℕ)
    (hall : ∀ c ∈ cs, callOk c) (hmem : ∃ c ∈ cs, c.userId = u) :
    currentCount (runCalls s cs).1 u = 1 := by
  rcases hmem with ⟨c, hc, hcu⟩
  exact runCalls_reaches u cs s ⟨c, hc, hcu, hall c hc⟩

/-- Example calls for the C1 witness: two updates of user 5. -/
def callEx1 : Call := ⟨5, .num 40, .num (-75), .nullv, .nullv, .nullv, .nullv, false⟩

/-- Second example call (secondary store down, still successful). -/
def callEx2 : Call := ⟨5, .num 41, .num (-74), .nullv, .nullv, .nullv, .nullv, true⟩

/-- Witness for C1: both calls are successful, user 5 occurs, and exactly
one current row remains. -/
theorem C1_witness :
    (∀ c ∈ [callEx1, callEx2], callOk c) ∧
      (∃ c ∈ [callEx1, callEx2], c.userId = 5) ∧
      currentCount (runCalls (dbEmpty, ([] : GeoDb)) [callEx1, callEx2]).1 5 = 1 :=
  ⟨by decide, by decide,
    C1_exactly_one_current (dbEmpty, ([] : GeoDb)) [callEx1, callEx2] 5
      (by decide) (by decide)⟩

/-- Counterexample to claim C2: in a concrete successful run of the
update-location handler, the PostGIS mirror write is issued strictly
BEFORE the MySQL commit, not after it — so the claim that the mirror
write executes only after the primary commit is false on the code. -/
theorem C2_counterexample :
    SqlEv.pgUpsert ∈
        (postLocation dbEmpty [] false 5 (.num 40) (.num (-75))
          .nullv .nullv .nullv .nullv).2.2.2 ∧
      SqlEv.commit ∈
        (postLocation dbEmpty [] false 5 (.num 40) (.num (-75))
          .nullv .nullv .nullv .nullv).2.2.2 ∧
      (postLocation dbEmpty [] false 5 (.num 40) (.num (-75))
            .nullv .nullv .nullv .nullv).2.2.2.indexOf SqlEv.pgUpsert <
        (postLocation dbEmpty [] false 5 (.num 40) (.num (-75))
          .nullv .nullv .nullv .nullv).2.2.2.indexOf SqlEv.commit := by
  decide

/-- Claim C2 amended: in every run that reaches the transaction, the
mirror write is issued after the three primary-store statements but
BEFORE the primary commit (its failure is caught, so the commit still
follows). -/
theorem C2_amended_pg_before_commit (db : MySqlDb) (geo : GeoDb) (pgDown : Bool)
    (userId : ℕ) (latitude longitude city state country postal_code : JsVal)
    (h1 : userId ≠ 0) (h2 : truthy latitude = true) (h3 : truthy longitude = true) :
    (postLocation db geo pgDown userId latitude longitude
        city state country postal_code).2.2.2 = updateTrace ∧
      updateTrace.indexOf SqlEv.insertUserLocation < updateTrace.indexOf SqlEv.pgUpsert ∧
      updateTrace.indexOf SqlEv.pgUpsert < updateTrace.indexOf SqlEv.commit := by
  refine ⟨?_, by decide, by decide⟩
  unfold postLocation
  rw [if_neg h1, if_neg (by simp [h2, h3])]
  cases hu : upsertUserLocation geo pgDown userId latitude longitude with
  | ok p =>
      obtain ⟨g2, row⟩ := p
      rfl
  | error e => rfl

/-- Witness for the amended C2. -/
theorem C2_witness :
    (5 ≠ 0) ∧ truthy (JsVal.num 40) = true ∧ truthy (JsVal.num (-75)) = true ∧
      ((postLocation dbEmpty [] false 5 (.num 40) (.num (-75))
          .nullv .nullv .nullv .nullv).2.2.2 = updateTrace ∧
        updateTrace.indexOf SqlEv.insertUserLocation < updateTrace.indexOf SqlEv.pgUpsert ∧
        updateTrace.indexOf SqlEv.pgUpsert < updateTrace.indexOf SqlEv.commit) :=
  ⟨by decide, by decide, by decide,
    C2_amended_pg_before_commit dbEmpty [] false 5 (.num 40) (.num (-75))
      .nullv .nullv .nullv .nullv (by decide) (by decide) (by decide)⟩

/-- Claim C3: when the secondary upsert fails but the primary operations
succeed, the handler still answers 201 with the primary ids, flags the
secondary outcome as failed, commits the primary update (no rollback in
the trace) and leaves the secondary store untouched. -/
theorem C3_secondary_failure_isolated (db : MySqlDb) (geo : GeoDb) (pgDown : Bool)
    (userId : ℕ) (latitude longitude city state country postal_code : JsVal)
    (e : String)
    (h1 : userId ≠ 0) (h2 : truthy latitude = true) (h3 : truthy longitude = true)
    (hpg : upsertUserLocation geo pgDown userId latitude longitude = .error e) :
    postLocation db geo pgDown userId latitude longitude city state country postal_code =
        (.created ⟨db.next_location_id, db.next_user_location_id, .failed⟩,
          mysqlAfterUpdate db userId latitude longitude city state country postal_code,
          geo, updateTrace) ∧
      SqlEv.commit ∈ updateTrace ∧ SqlEv.rollback ∉ updateTrace := by
  refine ⟨?_, by decide, by decide⟩
  unfold postLocation
  rw [if_neg h1, if_neg (by simp [h2, h3]), hpg]

/-- Witness for C3: the secondary store is down, the call still succeeds
on the primary store. -/
theorem C3_witness :
    upsertUserLocation [] true 5 (.num 40) (.num (-75)) =
        .error "PostgreSQL connection failed" ∧
      (postLocation dbEmpty [] true 5 (.num 40) (.num (-75))
            .nullv .nullv .nullv .nullv =
          (.created ⟨dbEmpty.next_location_id, dbEmpty.next_user_location_id, .failed⟩,
            mysqlAfterUpdate dbEmpty 5 (.num 40) (.num (-75)) .nullv .nullv .nullv .nullv,
            [], updateTrace) ∧
        SqlEv.commit ∈ updateTrace ∧ SqlEv.rollback ∉ updateTrace) :=
  ⟨rfl,
    C3_secondary_failure_isolated dbEmpty [] true 5 (.num 40) (.num (-75))
      .nullv .nullv .nullv .nullv "PostgreSQL connection failed"
      (by decide) (by decide) (by decide) rfl⟩

/-- Counterexample to claim C4: latitude 0 (the equator) is present,
numeric and in range — the geo service's own validator accepts the pair —
yet the handler's truthiness check rejects the request with a validation
error, because `!0` is true in JavaScript. -/
theorem C4_counterexample :
    isNumber (JsVal.num 0) = true ∧
      validateCoordinates (JsVal.num 0) (JsVal.num 10) = .ok () ∧
      postLocation dbEmpty [] false 5 (JsVal.num 0) (JsVal.num 10)
          .nullv .nullv .nullv .nullv =
        (.badRequest "Latitude and longitude are required", dbEmpty, [], []) := by
  refine ⟨rfl, rfl, by decide⟩

/-- Claim C4 amended: the handler rejects exactly when latitude or
longitude is JS-falsy (absent, null, false, the number 0, or the empty
string); rejection happens before any statement is issued and leaves both
stores unchanged; every request with truthy coordinates — numeric or not —
passes this check and reaches the transaction. -/
theorem C4_amended_falsy_validation (db : MySqlDb) (geo : GeoDb) (pgDown : Bool)
    (userId : ℕ) (latitude longitude city state country postal_code : JsVal)
    (h1 : userId ≠ 0) :
    ((truthy latitude = false ∨ truthy longitude = false) →
        postLocation db geo pgDown userId latitude longitude
            city state country postal_code =
          (.badRequest "Latitude and longitude are required", db, geo, [])) ∧
      (truthy latitude = true → truthy longitude = true →
        ∃ body : UpdateOk,
          (postLocation db geo pgDown userId latitude longitude
              city state country postal_code).1 = .created body) := by
  constructor
  · intro h2
    unfold postLocation
    rw [if_neg h1, if_pos h2]
  · intro h2 h3
    unfold postLocation
    rw [if_neg h1, if_neg (by simp [h2, h3])]
    cases hu : upsertUserLocation geo pgDown userId latitude longitude with
    | ok p =>
        obtain ⟨g2, row⟩ := p
        exact ⟨_, rfl⟩
    | error e => exact ⟨_, rfl⟩

/-- Witness for the amended C4 at a falsy latitude (`null`). -/
theorem C4_witness :
    (5 ≠ 0) ∧
      (((truthy JsVal.nullv = false ∨ truthy (JsVal.num 10) = false) →
          postLocation dbEmpty [] false 5 JsVal.nullv (JsVal.num 10)
              .nullv .nullv .nullv .nullv =
            (.badRequest "Latitude and longitude are required", dbEmpty, [], [])) ∧
        (truthy JsVal.nullv = true → truthy (JsVal.num 10) = true →
          ∃ body : UpdateOk,
            (postLocation dbEmpty [] false 5 JsVal.nullv (JsVal.num 10)
                .nullv .nullv .nullv .nullv).1 = .created body)) :=
  ⟨by decide,
    C4_amended_falsy_validation dbEmpty [] false 5 JsVal.nullv (JsVal.num 10)
      .nullv .nullv .nullv .nullv (by decide)⟩

/-- Current-location pointer row of user 5 in the one-user example. -/
def ulEx : UserLocationRow := ⟨1, 5, 1, true⟩

/-- Location row of user 5 in the one-user example: the point (0, 0). -/
def locEx : LocationRow := ⟨1, 0, 0, .nullv, .nullv, .nullv, .nullv⟩

/-- Example store with user 5 as the only user, currently at (0, 0). -/
def dbOneUser : MySqlDb := ⟨[locEx], [ulEx], [], [], [], 2, 2⟩

/-- Counterexample to claim C8: the heatmap query keeps EVERY
`is_current = TRUE` row, with no exclusion of the requester.  With user 5
as the only user, the claim predicts an empty point set (there is no
other user), but the handler returns the requester's own current location
(location_id 1, at the center) with count 1. -/
theorem C8_counterexample :
    getCurrentCoords dbOneUser 5 = some (0, 0) ∧
      heatmapHandler dbOneUser 5 10 =
        .withData [⟨1, 0, 0, .nullv, .nullv, .nullv, .nullv, true⟩] 1 0 0 := by
  refine ⟨rfl, ?_⟩
  have hcc : getCurrentCoords dbOneUser 5 = some (0, 0) := rfl
  have hcand : heatCandidates dbOneUser 0 0 =
      [⟨ulEx, locEx, sqlDistance ((0 : ℚ) : ℝ) ((0 : ℚ) : ℝ) ((0 : ℚ) : ℝ) ((0 : ℚ) : ℝ)⟩] :=
    rfl
  have hd0 : sqlDistance ((0 : ℚ) : ℝ) ((0 : ℚ) : ℝ) ((0 : ℚ) : ℝ) ((0 : ℚ) : ℝ) = 0 :=
    sqlDistance_self _ _
  have hrows : heatmapRows dbOneUser 0 0 10 =
      [⟨ulEx, locEx, sqlDistance ((0 : ℚ) : ℝ) ((0 : ℚ) : ℝ) ((0 : ℚ) : ℝ) ((0 : ℚ) : ℝ)⟩] := by
    unfold heatmapRows
    rw [hcand]
    have hp : (decide
        ((⟨ulEx, locEx, sqlDistance ((0 : ℚ) : ℝ) ((0 : ℚ) : ℝ) ((0 : ℚ) : ℝ) ((0 : ℚ) : ℝ)⟩ :
          HeatRow).distance < ((10 : ℚ) : ℝ))) = true := by
      rw [decide_eq_true_iff]
      show sqlDistance ((0 : ℚ) : ℝ) ((0 : ℚ) : ℝ) ((0 : ℚ) : ℝ) ((0 : ℚ) : ℝ) < ((10 : ℚ) : ℝ)
      rw [hd0]
      norm_num
    rw [List.filter_cons, hp]
    simp [List.mergeSort_singleton]
  simp only [heatmapHandler, hcc]
  rw [hrows]
  simp [formatLoc, ulEx, locEx]

/-- Claim C8 amended: for a requester with a current location, the
heatmap response carries exactly the current locations of ALL users
within the radius — the requester's own included — sorted by distance,
with the center coordinates and a count equal to the number of points. -/
theorem C8_amended_heatmap_all_current (db : MySqlDb) (u : ℕ) (radius la lo : ℚ)
    (h : getCurrentCoords db u = some (la, lo)) :
    heatmapHandler db u radius =
        .withData ((heatmapRows db la lo radius).map formatLoc)
          ((heatmapRows db la lo radius).map formatLoc).length la lo ∧
      (heatmapRows db la lo radius).Perm
        ((heatCandidates db la lo).filter
          (fun r => decide (r.distance < (radius : ℝ)))) ∧
      List.Sorted (fun a b : HeatRow => a.distance ≤ b.distance)
        (heatmapRows db la lo radius) := by
  refine ⟨?_, ?_, ?_⟩
  · simp only [heatmapHandler, h]
  · unfold heatmapRows
    exact List.mergeSort_perm _ _
  · unfold heatmapRows
    exact pairwise_mergeSort_key (fun r : HeatRow => r.distance) _

/-- Witness for the amended C8 on the one-user example store. -/
theorem C8_witness :
    getCurrentCoords dbOneUser 5 = some (0, 0) ∧
      (heatmapHandler dbOneUser 5 10 =
          .withData ((heatmapRows dbOneUser 0 0 10).map formatLoc)
            ((heatmapRows dbOneUser 0 0 10).map formatLoc).length 0 0 ∧
        (heatmapRows dbOneUser 0 0 10).Perm
          ((heatCandidates dbOneUser 0 0).filter
            (fun r => decide (r.distance < ((10 : ℚ) : ℝ)))) ∧
        List.Sorted (fun a b : HeatRow => a.distance ≤ b.distance)
          (heatmapRows dbOneUser 0 0 10)) :=
  ⟨rfl, C8_amended_heatmap_all_current dbOneUser 5 10 0 0 rfl⟩

lemma recCandidates_mem (db : MySqlDb) (u clusterId : ℕ)
    (bl : BusinessRow × LocationRow) (hbl : bl ∈ recCandidates db u clusterId) :
    bl.1.cluster_id = clusterId ∧ bl.1.business_id ∉ likedBy db u := by
  unfold recCandidates at hbl
  obtain ⟨hmem, hp⟩ := List.mem_filter.mp hbl
  rw [Bool.and_eq_true] at hp
  obtain ⟨hc, hl⟩ := hp
  refine ⟨by simpa using hc, ?_⟩
  intro hmem2
  rw [Bool.not_eq_true'] at hl
  have hcont : (likedBy db u).contains bl.1.business_id = true := by
    simpa [List.contains] using List.elem_eq_true_of_mem hmem2
  rw [hcont] at hl
  exact Bool.noConfusion hl

/-- Claim C9: recommendations require a preference row (404 otherwise);
the result rows come only from businesses of the user's cluster that the
user has not liked; the result is capped at the limit; rows are ordered
by ascending distance when a current location exists and by descending
rating otherwise. -/
theorem C9_recommendations (db : MySqlDb) (u limit : ℕ) :
    (prefLookup db u = none →
        recHandler db u limit = .notFound "User preferences not found") ∧
      (∀ clusterId, prefLookup db u = some clusterId →
        recHandler db u limit =
          .ok (recQuery db u clusterId (getCurrentCoords db u) limit)) ∧
      (∀ clusterId locOpt,
        (recQuery db u clusterId locOpt limit).Forall
            (fun r => r.business.cluster_id = clusterId ∧
              r.business.business_id ∉ likedBy db u) ∧
          (recQuery db u clusterId locOpt limit).length ≤ limit) ∧
      (∀ clusterId la lo,
        List.Sorted (fun a b : RecRow => a.distance.getD 0 ≤ b.distance.getD 0)
          (recQuery db u clusterId (some (la, lo)) limit)) ∧
      (∀ clusterId,
        List.Sorted (fun a b : RecRow => b.business.rating ≤ a.business.rating)
          (recQuery db u clusterId none limit)) := by
  refine ⟨?_, ?_, ?_, ?_, ?_⟩
  · intro h
    simp only [recHandler, h]
  · intro clusterId h
    simp only [recHandler, h]
  · intro clusterId locOpt
    constructor
    · rw [List.forall_iff_forall_mem]
      intro x hx
      cases locOpt with
      | none =>
          simp only [recQuery] at hx
          have hx1 := (List.take_sublist _ _).subset hx
          rw [List.mem_mergeSort] at hx1
          obtain ⟨bl, hbl, rfl⟩ := List.mem_map.mp hx1
          exact recCandidates_mem db u clusterId bl hbl
      | some p =>
          obtain ⟨la, lo⟩ := p
          simp only [recQuery] at hx
          have hx1 := (List.take_sublist _ _).subset hx
          rw [List.mem_mergeSort] at hx1
          obtain ⟨bl, hbl, rfl⟩ := List.mem_map.mp hx1
          exact recCandidates_mem db u clusterId bl hbl
    · cases locOpt with
      | none =>
          simp only [recQuery]
          exact List.length_take_le _ _
      | some p =>
          obtain ⟨la, lo⟩ := p
          simp only [recQuery]
          exact List.length_take_le _ _
  · intro clusterId la lo
    simp only [recQuery]
    exact List.Pairwise.sublist (List.take_sublist _ _)
      (pairwise_mergeSort_key (fun r : RecRow => r.distance.getD 0) _)
  · intro clusterId
    simp only [recQuery]
    exact List.Pairwise.sublist (List.take_sublist _ _)
      (pairwise_mergeSort_key_rev (fun r : RecRow => r.business.rating) _)

/-- Scenario businesses for the C9 witness, rated 4.8, 3.2 and 4.9, all
in cluster 3. -/
def bizA : BusinessRow := ⟨1, "A", "", "", 4.8, 1, 3⟩

/-- Scenario business rated 3.2. -/
def bizB : BusinessRow := ⟨2, "B", "", "", 3.2, 2, 3⟩

/-- Scenario business rated 4.9. -/
def bizC : BusinessRow := ⟨3, "C", "", "", 4.9, 3, 3⟩

/-- Scenario location of business A. -/
def locA : LocationRow := ⟨1, 10, 10, .nullv, .nullv, .nullv, .nullv⟩

/-- Scenario location of business B. -/
def locB : LocationRow := ⟨2, 20, 20, .nullv, .nullv, .nullv, .nullv⟩

/-- Scenario location of business C. -/
def locC : LocationRow := ⟨3, 30, 30, .nullv, .nullv, .nullv, .nullv⟩

/-- Scenario store: user 5 is in cluster 3, has no current location and
no likes; the three businesses above are the candidates. -/
def dbScenario : MySqlDb :=
  ⟨[locA, locB, locC], [], [bizA, bizB, bizC], [], [(5, 3)], 4, 1⟩

/-- Witness for C9 on the scenario store, including the spec's example:
ratings [4.8, 3.2, 4.9] come back ordered [4.9, 4.8, 3.2] for the
no-location user. -/
theorem C9_witness :
    prefLookup dbScenario 5 = some 3 ∧
      getCurrentCoords dbScenario 5 = none ∧
      recQuery dbScenario 5 3 none 10 =
        [⟨bizC, locC, none⟩, ⟨bizA, locA, none⟩, ⟨bizB, locB, none⟩] ∧
      ((prefLookup dbScenario 5 = none →
          recHandler dbScenario 5 10 = .notFound "User preferences not found") ∧
        (∀ clusterId, prefLookup dbScenario 5 = some clusterId →
          recHandler dbScenario 5 10 =
            .ok (recQuery dbScenario 5 clusterId (getCurrentCoords dbScenario 5) 10)) ∧
        (∀ clusterId locOpt,
          (recQuery dbScenario 5 clusterId locOpt 10).Forall
              (fun r => r.business.cluster_id = clusterId ∧
                r.business.business_id ∉ likedBy dbScenario 5) ∧
            (recQuery dbScenario 5 clusterId locOpt 10).length ≤ 10) ∧
        (∀ clusterId la lo,
          List.Sorted (fun a b : RecRow => a.distance.getD 0 ≤ b.distance.getD 0)
            (recQuery dbScenario 5 clusterId (some (la, lo)) 10)) ∧
        (∀ clusterId,
          List.Sorted (fun a b : RecRow => b.business.rating ≤ a.business.rating)
            (recQuery dbScenario 5 clusterId none 10))) :=
  ⟨rfl, rfl,
    by
      norm_num [recQuery, recCandidates, businessJoin, likedBy, dbScenario,
        bizA, bizB, bizC, locA, locB, locC, List.filter, List.flatMap,
        List.mergeSort, List.merge, List.contains, List.take],
    C9_recommendations dbScenario 5 10⟩
